import Mathlib

/-!
Shallow embedding of the head-coupled off-axis projection installation
(projection.py, main.py, smile_detector.py, flowers.py) and proofs of the
spec claims about it.  Python floats are modelled by exact rationals where
the code is pure arithmetic, and by real numbers where the code calls
sqrt / sin / exp / fractional powers.
-/

/-- Python-style linear interpolation `a + (b - a) * t` (lerp in
smile_detector.py and flowers.py), over the rationals. -/
def pylerp (a b t : ℚ) : ℚ := a + (b - a) * t

/-- Clamp to the unit interval, written in the code as
`max(0.0, min(1.0, x))`. -/
def clamp01 (x : ℚ) : ℚ := max 0 (min 1 x)

/-- Python `int(q)`: truncation of a rational toward zero. -/
def pyTrunc (q : ℚ) : ℤ := if 0 ≤ q then ⌊q⌋ else ⌈q⌉

/-- Point3D from geometry.py: a plain (x, y, z) world-space coordinate. -/
structure Point3D where
  x : ℚ
  y : ℚ
  z : ℚ
deriving DecidableEq, Repr

/-- Result type of project_off_axis: Python returns `None`, a pair
`(pixel_x, pixel_y)`, or a triple `(pixel_x, pixel_y, scale)` depending on
the `return_scale` flag. -/
inductive ProjResult where
  | behindNear : ProjResult
  | pix (px py : ℤ) : ProjResult
  | pixScale (px py : ℤ) (scale : ℚ) : ProjResult
deriving DecidableEq, Repr

/-- project_off_axis from projection.py.  The world-to-camera transform is
a function parameter in the source as well (passed in to avoid a circular
module dependency), so it is a parameter here. -/
def project_off_axis (p : Point3D) (head_x head_y camera_pitch camera_height
    eye_depth near_clip unit_scale width height : ℚ)
    (world_to_camera : Point3D → ℚ → ℚ → ℚ × ℚ × ℚ)
    (return_scale : Bool) : ProjResult :=
  let cam := world_to_camera p camera_pitch camera_height
  let x_cam := cam.1
  let y_cam := cam.2.1
  let z_cam := cam.2.2
  let total_depth := eye_depth + z_cam
  if total_depth ≤ near_clip then ProjResult.behindNear
  else
    let ratio := eye_depth / total_depth
    let screen_x_virtual := head_x + (x_cam - head_x) * ratio
    let screen_y_virtual := head_y + (y_cam - head_y) * ratio
    let pixel_x := pyTrunc (width / 2 + screen_x_virtual * unit_scale)
    let pixel_y := pyTrunc (height / 2 - screen_y_virtual * unit_scale)
    let scale := eye_depth / (eye_depth + z_cam) * unit_scale
    if return_scale then ProjResult.pixScale pixel_x pixel_y scale
    else ProjResult.pix pixel_x pixel_y

/-- world_to_camera from main.py, with the pitch entering only through its
cosine and sine, which are supplied as the precomputed values cosP and
sinP (the source computes them once with math.cos / math.sin). -/
def world_to_cameraQ (cosP sinP : ℚ) (p : Point3D) (camera_height : ℚ) :
    ℚ × ℚ × ℚ :=
  let y_rel := p.y - camera_height
  (p.x, y_rel * cosP + p.z * sinP, -y_rel * sinP + p.z * cosP)

/-- World state of the scene director in main.py (WORLD_DORMANT = 0,
WORLD_AWAKENING = 1, WORLD_ALIVE = 2). -/
inductive WorldState where
  | dormant : WorldState
  | awakening : WorldState
  | alive : WorldState
deriving DecidableEq, Repr

/-- Linear rank of a world state, matching the integer encoding in
main.py. -/
def WorldState.rank : WorldState → ℕ
  | .dormant => 0
  | .awakening => 1
  | .alive => 2

/-- Director state carried across frames by the main loop in main.py:
the world state, the awakening clock, the intro clock, and the
smile-sustain start time (None when no sustained smile is in progress). -/
structure DirectorState where
  world_state : WorldState
  awakening_time : ℚ
  intro_time : ℚ
  smile_start_time : Option ℚ
deriving DecidableEq, Repr

/-- Per-frame inputs read by the director logic: the frame time step, whether
the smile-reveal text is fully visible (smile_text.state == STATE_VISIBLE),
whether the tracker currently detects a face, and the smoothed smile
strength from the detector. -/
structure FrameInput where
  dt : ℚ
  text_visible : Bool
  detected : Bool
  smile_strength : ℚ
deriving DecidableEq, Repr

/-- SMILE_SUSTAIN_DURATION = 0.3 in main.py. -/
def SMILE_SUSTAIN_DURATION : ℚ := 3/10

/-- SMILE_THRESHOLD = 0.6 inside main() in main.py. -/
def SMILE_THRESHOLD_MAIN : ℚ := 3/5

/-- AWAKEN_DURATION = 12.0 in main.py. -/
def AWAKEN_DURATION : ℚ := 12

/-- Dormant-phase smile check of the main loop (main.py lines 306-326),
run after intro_time has been advanced for the frame.  Only acts when the
world state is DORMANT and the reveal text is fully visible; requires a
detected face with strength strictly above the threshold, starts or checks
the sustain timer, and on a sustained smile enters AWAKENING with
awakening_time reset to 0. -/
def dormantSmileCheck (s : DirectorState) (i : FrameInput) : DirectorState :=
  match s.world_state with
  | .dormant =>
    if i.text_visible then
      if i.detected = true ∧ SMILE_THRESHOLD_MAIN < i.smile_strength then
        match s.smile_start_time with
        | none => { s with smile_start_time := some s.intro_time }
        | some t0 =>
          if SMILE_SUSTAIN_DURATION ≤ s.intro_time - t0 then
            { s with world_state := .awakening, awakening_time := 0 }
          else s
      else { s with smile_start_time := none }
    else s
  | _ => s

/-- Awakening-clock advance of the main loop (main.py lines 328-332):
in AWAKENING, awakening_time accumulates dt and on reaching
AWAKEN_DURATION is clamped while the state moves to ALIVE. -/
def awakenAdvance (s : DirectorState) (dt : ℚ) : DirectorState :=
  match s.world_state with
  | .awakening =>
    let t := s.awakening_time + dt
    if AWAKEN_DURATION ≤ t then
      { s with awakening_time := AWAKEN_DURATION, world_state := .alive }
    else { s with awakening_time := t }
  | _ => s

/-- Smoothstep easing from main.py: ease(t) = t·t·(3 - 2·t). -/
def ease (t : ℚ) : ℚ := t * t * (3 - 2 * t)

/-- Room-energy computation of the main loop (main.py lines 336-344):
0 in DORMANT, ease(min(awakening_time / 12, 1)) in AWAKENING, 1 in
ALIVE. -/
def computeEnergy (s : DirectorState) : ℚ :=
  match s.world_state with
  | .dormant => 0
  | .awakening => ease (min (s.awakening_time / 12) 1)
  | .alive => 1

/-- One frame of the director portion of the main loop: advance intro_time,
run the dormant smile check, advance the awakening clock, and produce the
room energy for the frame. -/
def directorStep (s : DirectorState) (i : FrameInput) : DirectorState × ℚ :=
  let s1 := { s with intro_time := s.intro_time + i.dt }
  let s2 := dormantSmileCheck s1 i
  let s3 := awakenAdvance s2 i.dt
  (s3, computeEnergy s3)

/-- State of the SmileDetector from smile_detector.py: constructor defaults
threshold 0.22, smoothing 0.08, strength 0, no baseline, baseline smoothing
0.02, calibration not started, 2-second calibration window, not calibrated,
zero calibration samples. -/
structure SmileState where
  threshold : ℚ
  smooth : ℚ
  smile_strength : ℚ
  baseline : Option ℚ
  baseline_smooth : ℚ
  calibration_start_time : Option ℚ
  calibration_duration : ℚ
  is_calibrated : Bool
  calibration_sample_count : ℕ
deriving DecidableEq, Repr

/-- SmileDetector.__init__ from smile_detector.py. -/
def SmileDetector_init (threshold smooth : ℚ) : SmileState :=
  { threshold := threshold, smooth := smooth, smile_strength := 0,
    baseline := none, baseline_smooth := 1/50,
    calibration_start_time := none, calibration_duration := 2,
    is_calibrated := false, calibration_sample_count := 0 }

/-- SmileDetector.update from smile_detector.py.  The landmark list is
abstracted to the value of compute_mouth_aspect on it: the input is none
when no landmarks are supplied, and some m when landmarks are present and
their computed mouth-aspect metric is m (compute_mouth_aspect itself is a
pure hypot-ratio computation whose internals none of the claims
constrain).  The console logging and the _metric_log_count attribute of the
source have no observable state effect and are not modelled. -/
def SmileDetector_update (s : SmileState) (metric : Option ℚ)
    (current_time : Option ℚ) : SmileState :=
  match metric with
  | none =>
    { s with calibration_start_time := none, is_calibrated := false,
             smile_strength := pylerp s.smile_strength 0 s.smooth }
  | some m =>
    if m < 4 ∨ 2000 < m then
      { s with smile_strength :=
          pylerp s.smile_strength s.smile_strength s.smooth }
    else
      let bl0 := match s.baseline with
        | none => m
        | some b => b
      let cst0 := match s.baseline with
        | none => current_time
        | some _ => s.calibration_start_time
      let bl1 := if s.is_calibrated = false then
          pylerp bl0 m s.baseline_smooth
        else bl0
      let cnt1 := if s.is_calibrated = false then
          s.calibration_sample_count + 1
        else s.calibration_sample_count
      let cal1 : Bool :=
        if s.is_calibrated = false then
          match current_time, cst0 with
          | some ct, some st =>
            if s.calibration_duration ≤ ct - st then true else s.is_calibrated
          | _, _ => s.is_calibrated
        else s.is_calibrated
      let target := if cal1 then clamp01 (|m - bl1| / 150) else 0
      { s with baseline := some bl1, calibration_start_time := cst0,
               calibration_sample_count := cnt1, is_calibrated := cal1,
               smile_strength := pylerp s.smile_strength target s.smooth }

/-- States reached after each successive SmileDetector.update call of an
input trace (each entry pairs the landmark metric with the current_time
argument). -/
def smileStatesAfter (s : SmileState) :
    List (Option ℚ × Option ℚ) → List SmileState
  | [] => []
  | p :: ps =>
    let s1 := SmileDetector_update s p.1 p.2
    s1 :: smileStatesAfter s1 ps

/-- Clamp to the unit interval over the reals, for the float code paths. -/
noncomputable def clamp01R (x : ℝ) : ℝ := max 0 (min 1 x)

/-- Linear interpolation over the reals (lerp in flowers.py). -/
noncomputable def pylerpR (a b t : ℝ) : ℝ := a + (b - a) * t

/-- Normalized distance of a flower at (x, z) from the wave origin (0, 0)
in FlowerField.update: dx = x / max_x, dz = z / depth_repeat,
distance = sqrt(dx·dx + dz·dz). -/
noncomputable def waveDistance (maxX depthRepeat x z : ℝ) : ℝ :=
  Real.sqrt ((x / maxX) * (x / maxX) +
    (z / depthRepeat) * (z / depthRepeat))

/-- Primary wave envelope of FlowerField.update: with
wave_front = world_energy · depth_repeat · 1.2 and WAVE_WIDTH = 0.9,
raw = (wave_front - distance · depth_repeat) / WAVE_WIDTH clamped to
[0, 1]. -/
noncomputable def primaryEnvelope (maxX depthRepeat E x z : ℝ) : ℝ :=
  clamp01R ((E * depthRepeat * 1.2 -
    waveDistance maxX depthRepeat x z * depthRepeat) / 0.9)

/-- Secondary echo envelope of FlowerField.update: the same front delayed
by 1.5 world units with width 1.2, clamped to [0, 1]. -/
noncomputable def echoEnvelope (maxX depthRepeat E x z : ℝ) : ℝ :=
  clamp01R ((E * depthRepeat * 1.2 -
    waveDistance maxX depthRepeat x z * depthRepeat - 1.5) / 1.2)

/-- Complete life target of FlowerField.update for one flower: primary
envelope maxed with 0.35 · echo, plus the ripple
RIPPLE_STRENGTH · sin(z · RIPPLE_FREQ - world_energy · 6), clamped to
[0, 1] and sharpened with the 1.4 power. -/
noncomputable def lifeTarget (maxX depthRepeat E x z : ℝ) : ℝ :=
  let base := max (primaryEnvelope maxX depthRepeat E x z)
    (echoEnvelope maxX depthRepeat E x z * 0.35)
  let ripple := 0.08 * Real.sin (z * 1.2 - E * 6.0)
  clamp01R (base + ripple) ^ (1.4 : ℝ)

/-- Flower from flowers.py, restricted to the fields read or written by
Flower.__init__ and the per-frame update path (FlowerField.update and
Flower.update).  The randomized draw-only geometry parameters (petal
phases, rose layers, stem curvature and so on) are never touched by the
update path and are omitted; the internal animation clock _time is named
timeAcc. -/
structure Flower where
  x : ℝ
  base_y : ℝ
  y : ℝ
  breath_offset : ℝ
  z : ℝ
  size : ℝ
  hue : ℝ
  color_progress : ℝ
  depth_repeat : ℝ
  timeAcc : ℝ
  life : ℝ
  bloom_max : ℝ

/-- Flower.__init__ from flowers.py: life starts at 0, bloom_max at 0,
color_progress at 0, breath_offset at 0, depth_repeat at
FLOWER_DEPTH_REPEAT = 20; t0 stands for the random de-sync draw
random.uniform(0, 10) of the internal clock. -/
def Flower.init (x y z size hue t0 : ℝ) : Flower :=
  { x := x, base_y := y, y := y, breath_offset := 0, z := z, size := size,
    hue := hue, color_progress := 0, depth_repeat := 20, timeAcc := t0,
    life := 0, bloom_max := 0 }

/-- Flower.update from flowers.py: advance color_progress toward the
target with an exponential factor 1 - exp(-5·dt), advance the internal
clock by dt, and recompute the breathing offset
sin(time·1.1 + x·2)·0.02·depth_factor·life with
depth_factor = max(0, 1 - z/10). -/
noncomputable def Flower.updateF (f : Flower) (dt progress : ℝ) : Flower :=
  let cp := pylerpR f.color_progress progress (1 - Real.exp (-(5 * dt)))
  let tAcc := f.timeAcc + dt
  let depth_factor := max 0 (1 - f.z / 10)
  { f with color_progress := cp, timeAcc := tAcc,
           breath_offset := Real.sin (tAcc * 1.1 + f.x * 2.0) * 0.02 *
             depth_factor * f.life }

/-- FlowerField state from flowers.py: lane count, lane height, spacing,
depth_repeat and the flower pool. -/
structure FieldState where
  lanes : ℕ
  lane_y : ℝ
  spacing : ℝ
  depth_repeat : ℝ
  flowers : List Flower

/-- FlowerField.update from flowers.py: per flower, compute the wave life
target, store it as the flower life, run the flower's own update with it,
and recompute the flower's y from the depth-normalized lane height plus
the breathing offset.  head_x and head_y are accepted exactly as in the
source signature, where the update body never reads them. -/
noncomputable def FlowerField_update (fs : FieldState)
    (dt head_x head_y world_energy : ℝ) : FieldState :=
  let maxX := max 0.001 (((fs.lanes : ℝ) - 1) * fs.spacing * 0.5)
  { fs with flowers := fs.flowers.map (fun f =>
      let lt := lifeTarget maxX fs.depth_repeat world_energy f.x f.z
      let f1 := { f with life := lt }
      let f2 := f1.updateF dt lt
      let depth_norm := min 1 (f2.z / fs.depth_repeat)
      { f2 with y := fs.lane_y * (1 - 0.35 * depth_norm) +
          f2.breath_offset }) }

/-- Bloom-progress computation of Flower._draw_neon_rose_head in
flowers.py (the petal path): from the externally imposed life and the
stored bloom_max latch, compute the depth-dependent delay, then either
return rendered bloom 0 with the latch untouched (life below the delay) or
the clamped, latched progress together with the updated latch.  Returns
(rendered bloom_t, new bloom_max). -/
def roseBloomStep (z depth_repeat life bloom_max : ℚ) : ℚ × ℚ :=
  let depth_norm := clamp01 (z / depth_repeat)
  let base_delay : ℚ := 1/4
  let depth_delay := min (3/20) (depth_norm * (1/5))
  let total_delay := base_delay + depth_delay
  if life < total_delay then (0, bloom_max)
  else
    let raw := (life - total_delay) / (1 - total_delay)
    let clamped := clamp01 raw
    let latched := max bloom_max clamped
    (latched, latched)

/-- Bloom-progress computation replicated in Flower._draw_neon_stem in
flowers.py (the stem-glow path): the same delay and ramp, with no latch at
all. -/
def stemBloom (z depth_repeat life : ℚ) : ℚ :=
  let depth_norm := clamp01 (z / depth_repeat)
  let total_delay := 1/4 + min (3/20) (depth_norm * (1/5))
  if life < total_delay then 0
  else clamp01 ((life - total_delay) / (1 - total_delay))

/-- FLOWER_DRAW_LIMIT = 400 in flowers.py. -/
def FLOWER_DRAW_LIMIT : ℕ := 400

/-- Camera-space depth of a flower position under main.world_to_camera,
as used by FlowerField.draw (cosP and sinP are the precomputed cosine and
sine of the camera pitch). -/
def zcamOf (cosP sinP camera_height : ℚ) (p : Point3D) : ℚ :=
  (world_to_cameraQ cosP sinP p camera_height).2.2

/-- Depth-culling pass of FlowerField.draw in flowers.py: for each flower
compute z_cam and total_depth = eye_depth + z_cam, dropping flowers with
total_depth ≤ near_clip; items carry (z_cam, total_depth, flower
position).  Flowers are represented by their positions; the numeric
transform raises no exceptions, so the except fallback path of the source
is never taken. -/
def drawItems (cosP sinP camera_height eye_depth near_clip : ℚ)
    (flowers : List Point3D) : List (ℚ × ℚ × Point3D) :=
  flowers.filterMap (fun f =>
    let z_cam := zcamOf cosP sinP camera_height f
    let total_depth := eye_depth + z_cam
    if total_depth ≤ near_clip then none
    else some (z_cam, total_depth, f))

/-- Sorting pass of FlowerField.draw: items.sort(key z_cam, reverse=True),
a stable descending sort on z_cam, modelled by a stable merge sort with
the order b.z_cam ≤ a.z_cam. -/
def drawSorted (cosP sinP camera_height eye_depth near_clip : ℚ)
    (flowers : List Point3D) : List (ℚ × ℚ × Point3D) :=
  (drawItems cosP sinP camera_height eye_depth near_clip flowers).mergeSort
    (fun a b => decide (b.1 ≤ a.1))

/-- Draw loop of FlowerField.draw: walk the sorted items up to
FLOWER_DRAW_LIMIT, computing each drawn flower's perspective scale
eye_depth / total_depth. -/
def drawPass (cosP sinP camera_height eye_depth near_clip : ℚ)
    (flowers : List Point3D) : List (Point3D × ℚ) :=
  ((drawSorted cosP sinP camera_height eye_depth near_clip
      flowers).take FLOWER_DRAW_LIMIT).map
    (fun it => (it.2.2, eye_depth / it.2.1))

lemma dormantSmileCheck_of_not_dormant (s : DirectorState) (i : FrameInput)
    (h : s.world_state ≠ WorldState.dormant) : dormantSmileCheck s i = s := by
  cases hw : s.world_state with
  | dormant => exact absurd hw h
  | awakening => simp [dormantSmileCheck, hw]
  | alive => simp [dormantSmileCheck, hw]

lemma awakenAdvance_of_not_awakening (s : DirectorState) (dt : ℚ)
    (h : s.world_state ≠ WorldState.awakening) : awakenAdvance s dt = s := by
  cases hw : s.world_state with
  | dormant => simp [awakenAdvance, hw]
  | awakening => exact absurd hw h
  | alive => simp [awakenAdvance, hw]

lemma dormantSmileCheck_world_state (s : DirectorState) (i : FrameInput) :
    (dormantSmileCheck s i).world_state = s.world_state ∨
      (s.world_state = WorldState.dormant ∧
        (dormantSmileCheck s i).world_state = WorldState.awakening) := by
  cases hw : s.world_state with
  | dormant =>
    by_cases hv : i.text_visible
    · by_cases hc : i.detected = true ∧ SMILE_THRESHOLD_MAIN < i.smile_strength
      · cases hst : s.smile_start_time with
        | none => left; simp [dormantSmileCheck, hw, hv, hc, hst]
        | some t0 =>
          by_cases hs : SMILE_SUSTAIN_DURATION ≤ s.intro_time - t0
          · right; exact ⟨rfl, by simp [dormantSmileCheck, hw, hv, hc, hst, hs]⟩
          · left; simp [dormantSmileCheck, hw, hv, hc, hst, hs]
      · left; simp [dormantSmileCheck, hw, hv, hc]
    · left; simp [dormantSmileCheck, hw, hv]
  | awakening => left; simp [dormantSmileCheck, hw]
  | alive => left; simp [dormantSmileCheck, hw]

lemma awakenAdvance_world_state (s : DirectorState) (dt : ℚ) :
    (awakenAdvance s dt).world_state = s.world_state ∨
      (s.world_state = WorldState.awakening ∧
        (awakenAdvance s dt).world_state = WorldState.alive) := by
  cases hw : s.world_state with
  | dormant => left; simp [awakenAdvance, hw]
  | awakening =>
    by_cases hd : AWAKEN_DURATION ≤ s.awakening_time + dt
    · right; exact ⟨rfl, by simp [awakenAdvance, hw, hd]⟩
    · left; simp [awakenAdvance, hw, hd]
  | alive => left; simp [awakenAdvance, hw]

lemma directorStep_alive (s : DirectorState) (i : FrameInput)
    (hw : s.world_state = WorldState.alive) :
    (directorStep s i).1.world_state = WorldState.alive := by
  have h1 : ({ s with intro_time := s.intro_time + i.dt } :
      DirectorState).world_state = WorldState.alive := hw
  have h2 := dormantSmileCheck_of_not_dormant
    { s with intro_time := s.intro_time + i.dt } i (by rw [h1]; simp)
  have h3 := awakenAdvance_of_not_awakening
    (dormantSmileCheck { s with intro_time := s.intro_time + i.dt } i) i.dt
    (by rw [h2, h1]; simp)
  show (awakenAdvance
    (dormantSmileCheck { s with intro_time := s.intro_time + i.dt } i)
    i.dt).world_state = WorldState.alive
  rw [h3, h2]
  exact h1

lemma ease_mono {x y : ℚ} (hx : 0 ≤ x) (hxy : x ≤ y) (hy : y ≤ 1) :
    ease x ≤ ease y := by
  have hy0 : 0 ≤ y := hx.trans hxy
  have hx1 : x ≤ 1 := hxy.trans hy
  unfold ease
  nlinarith [sub_nonneg.2 hxy, mul_nonneg hx (sub_nonneg.2 hy),
    mul_nonneg hy0 (sub_nonneg.2 hx1), mul_nonneg hx (sub_nonneg.2 hx1),
    mul_nonneg hy0 (sub_nonneg.2 hy)]

lemma smile_step_zero (s : SmileState) (m t : Option ℚ)
    (h0 : s.smile_strength = 0)
    (h1 : (SmileDetector_update s m t).is_calibrated = false) :
    (SmileDetector_update s m t).smile_strength = 0 := by
  cases m with
  | none => simp [SmileDetector_update, pylerp, h0]
  | some v =>
    by_cases hv : v < 4 ∨ 2000 < v
    · simp [SmileDetector_update, hv, pylerp, h0]
    · cases hcal : s.is_calibrated with
      | true => simp [SmileDetector_update, hv, hcal] at h1
      | false =>
        simp [SmileDetector_update, hv, hcal] at h1
        simp [SmileDetector_update, hv, hcal, pylerp, h0, h1]

lemma smile_trace_zero (s : SmileState) (ins : List (Option ℚ × Option ℚ))
    (h0 : s.smile_strength = 0)
    (hall : ∀ st ∈ smileStatesAfter s ins, st.is_calibrated = false) :
    ∀ st ∈ smileStatesAfter s ins, st.smile_strength = 0 := by
  induction ins generalizing s with
  | nil => intro st hst; simp [smileStatesAfter] at hst
  | cons p ps ih =>
    intro st hst
    simp only [smileStatesAfter, List.mem_cons] at hst hall
    have hs1cal : (SmileDetector_update s p.1 p.2).is_calibrated = false :=
      hall _ (Or.inl rfl)
    have hs1 : (SmileDetector_update s p.1 p.2).smile_strength = 0 :=
      smile_step_zero s p.1 p.2 h0 hs1cal
    rcases hst with rfl | hst
    · exact hs1
    · exact ih (SmileDetector_update s p.1 p.2) hs1
        (fun st2 h2 => hall st2 (Or.inr h2)) st hst

lemma clamp01R_nonneg (x : ℝ) : 0 ≤ clamp01R x := le_max_left _ _

lemma clamp01R_le_one (x : ℝ) : clamp01R x ≤ 1 :=
  max_le zero_le_one (min_le_left _ _)

lemma clamp01R_mono {a b : ℝ} (h : a ≤ b) : clamp01R a ≤ clamp01R b :=
  max_le_max le_rfl (min_le_min le_rfl h)

lemma clamp01R_of_nonpos {r : ℝ} (h : r ≤ 0) : clamp01R r = 0 := by
  unfold clamp01R
  rw [min_eq_right (h.trans zero_le_one), max_eq_left h]

lemma lifeTarget_mem (maxX depthRepeat E x z : ℝ) :
    0 ≤ lifeTarget maxX depthRepeat E x z ∧
      lifeTarget maxX depthRepeat E x z ≤ 1 := by
  unfold lifeTarget
  constructor
  · exact Real.rpow_nonneg (clamp01R_nonneg _) _
  · exact Real.rpow_le_one (clamp01R_nonneg _) (clamp01R_le_one _)
      (by norm_num)

lemma drawLe_trans (a b c : ℚ × ℚ × Point3D)
    (h1 : (fun a b => decide (b.1 ≤ a.1)) a b)
    (h2 : (fun a b => decide (b.1 ≤ a.1)) b c) :
    (fun a b => decide (b.1 ≤ a.1)) a c := by
  simp only [decide_eq_true_eq] at h1 h2 ⊢
  exact h2.trans h1

lemma drawLe_total (a b : ℚ × ℚ × Point3D) :
    (fun a b => decide (b.1 ≤ a.1)) a b ∨
      (fun a b => decide (b.1 ≤ a.1)) b a := by
  simp only [decide_eq_true_eq]
  exact le_total b.1 a.1

/-- C2.  Projection contract: project_off_axis returns the not-visible
marker exactly when total_depth = eye_depth + z_cam ≤ near_clip; otherwise,
with ratio = eye_depth / total_depth, it returns the pixel coordinates
width/2 + (head_x + (x_cam - head_x)·ratio)·unit_scale and
height/2 - (head_y + (y_cam - head_y)·ratio)·unit_scale (y flipped),
truncated to integer pixels, together with the perspective scale
ratio·unit_scale when return_scale is requested. -/
theorem C2_projection_contract (p : Point3D)
    (head_x head_y camera_pitch camera_height eye_depth near_clip unit_scale
      width height : ℚ)
    (w2c : Point3D → ℚ → ℚ → ℚ × ℚ × ℚ) (return_scale : Bool) :
    (project_off_axis p head_x head_y camera_pitch camera_height eye_depth
        near_clip unit_scale width height w2c return_scale =
        ProjResult.behindNear ↔
      eye_depth + (w2c p camera_pitch camera_height).2.2 ≤ near_clip) ∧
    (near_clip < eye_depth + (w2c p camera_pitch camera_height).2.2 →
      project_off_axis p head_x head_y camera_pitch camera_height eye_depth
        near_clip unit_scale width height w2c true =
        ProjResult.pixScale
          (pyTrunc (width / 2 +
            (head_x + ((w2c p camera_pitch camera_height).1 - head_x) *
              (eye_depth /
                (eye_depth + (w2c p camera_pitch camera_height).2.2))) *
            unit_scale))
          (pyTrunc (height / 2 -
            (head_y + ((w2c p camera_pitch camera_height).2.1 - head_y) *
              (eye_depth /
                (eye_depth + (w2c p camera_pitch camera_height).2.2))) *
            unit_scale))
          (eye_depth / (eye_depth + (w2c p camera_pitch camera_height).2.2) *
            unit_scale)) ∧
    (near_clip < eye_depth + (w2c p camera_pitch camera_height).2.2 →
      project_off_axis p head_x head_y camera_pitch camera_height eye_depth
        near_clip unit_scale width height w2c false =
        ProjResult.pix
          (pyTrunc (width / 2 +
            (head_x + ((w2c p camera_pitch camera_height).1 - head_x) *
              (eye_depth /
                (eye_depth + (w2c p camera_pitch camera_height).2.2))) *
            unit_scale))
          (pyTrunc (height / 2 -
            (head_y + ((w2c p camera_pitch camera_height).2.1 - head_y) *
              (eye_depth /
                (eye_depth + (w2c p camera_pitch camera_height).2.2))) *
            unit_scale))) := by
  refine ⟨?_, ?_, ?_⟩
  · unfold project_off_axis
    by_cases hc : eye_depth + (w2c p camera_pitch camera_height).2.2 ≤ near_clip
    · simp [hc]
    · rw [if_neg hc]
      cases return_scale <;> simp [hc]
  · intro h
    unfold project_off_axis
    rw [if_neg (not_le.mpr h)]
    simp
  · intro h
    unfold project_off_axis
    rw [if_neg (not_le.mpr h)]
    simp

/-- Concrete check of the projection contract: at pitch 0 (cos 1, sin 0),
camera height 0, eye depth 2, near clip 1/20, unit scale 100, a 1000x700
viewport, head at the origin and the point (1, 1, 2), total depth is 4 and
the projection lands at pixel (550, 300) with perspective scale 50. -/
theorem C2_projection_contract_witness :
    project_off_axis ⟨1, 1, 2⟩ 0 0 0 0 2 (1/20) 100 1000 700
        (fun p _ ch => world_to_cameraQ 1 0 p ch) true =
      ProjResult.pixScale 550 300 50 := by
  have h := (C2_projection_contract ⟨1, 1, 2⟩ 0 0 0 0 2 (1/20) 100 1000 700
    (fun p _ ch => world_to_cameraQ 1 0 p ch) true).2.1
    (by norm_num [world_to_cameraQ])
  rw [h]
  norm_num [world_to_cameraQ, pyTrunc]

/-- C3.  Director transition: from DORMANT the state moves to AWAKENING
exactly when the smile-reveal text is fully visible, a face is detected, the
smoothed smile strength strictly exceeds the threshold, and the sustain
timer covers at least SMILE_SUSTAIN_DURATION (0.3 s); the transition sets
awakening_time to 0; a frame with the text visible where detection or
strength fails resets the sustain timer to none; the first qualifying frame
only starts the timer (no instant transition); with the text not visible
the dormant check is a no-op; and the full director step never decreases
the world-state rank, so the AWAKENING transition fires at most once and
the director never moves backward from AWAKENING or ALIVE. -/
theorem C3_director_transition (u s : DirectorState) (i j : FrameInput) :
    (u.world_state = WorldState.dormant →
      (((dormantSmileCheck u i).world_state = WorldState.awakening) ↔
        (i.text_visible = true ∧ i.detected = true ∧
          SMILE_THRESHOLD_MAIN < i.smile_strength ∧
          ∃ t0, u.smile_start_time = some t0 ∧
            SMILE_SUSTAIN_DURATION ≤ u.intro_time - t0)) ∧
      ((dormantSmileCheck u i).world_state = WorldState.awakening →
        (dormantSmileCheck u i).awakening_time = 0) ∧
      (i.text_visible = true →
        ¬(i.detected = true ∧ SMILE_THRESHOLD_MAIN < i.smile_strength) →
        (dormantSmileCheck u i).smile_start_time = none) ∧
      (i.text_visible = true → i.detected = true →
        SMILE_THRESHOLD_MAIN < i.smile_strength → u.smile_start_time = none →
        (dormantSmileCheck u i).world_state = WorldState.dormant ∧
        (dormantSmileCheck u i).smile_start_time = some u.intro_time) ∧
      (i.text_visible = false → dormantSmileCheck u i = u)) ∧
    WorldState.rank s.world_state ≤
      WorldState.rank (directorStep s j).1.world_state ∧
    ((directorStep s j).1.world_state = WorldState.awakening →
      s.world_state ≠ WorldState.alive) ∧
    (s.world_state = WorldState.alive →
      (directorStep s j).1.world_state = WorldState.alive) := by
  have halive : s.world_state = WorldState.alive →
      (directorStep s j).1.world_state = WorldState.alive :=
    directorStep_alive s j
  refine ⟨?_, ?_, ?_, halive⟩
  · intro hu
    refine ⟨?_, ?_, ?_, ?_, ?_⟩
    · constructor
      · intro hres
        by_cases hv : i.text_visible
        · by_cases hc : i.detected = true ∧ SMILE_THRESHOLD_MAIN < i.smile_strength
          · cases hst : u.smile_start_time with
            | none => simp [dormantSmileCheck, hu, hv, hc, hst] at hres
            | some t0 =>
              by_cases hs : SMILE_SUSTAIN_DURATION ≤ u.intro_time - t0
              · exact ⟨hv, hc.1, hc.2, t0, rfl, hs⟩
              · simp [dormantSmileCheck, hu, hv, hc, hst, hs] at hres
          · simp [dormantSmileCheck, hu, hv, hc] at hres
        · simp [dormantSmileCheck, hu, hv] at hres
      · rintro ⟨hv, hd, hth, t0, hst, hs⟩
        simp [dormantSmileCheck, hu, hv, hd, hth, hst, hs]
    · intro hres
      by_cases hv : i.text_visible
      · by_cases hc : i.detected = true ∧ SMILE_THRESHOLD_MAIN < i.smile_strength
        · cases hst : u.smile_start_time with
          | none => simp [dormantSmileCheck, hu, hv, hc, hst] at hres
          | some t0 =>
            by_cases hs : SMILE_SUSTAIN_DURATION ≤ u.intro_time - t0
            · simp [dormantSmileCheck, hu, hv, hc, hst, hs]
            · simp [dormantSmileCheck, hu, hv, hc, hst, hs] at hres
        · simp [dormantSmileCheck, hu, hv, hc] at hres
      · simp [dormantSmileCheck, hu, hv] at hres
    · intro hv hc
      simp [dormantSmileCheck, hu, hv, hc]
    · intro hv hd hth hst
      constructor
      · simp [dormantSmileCheck, hu, hv, hd, hth, hst]
      · simp [dormantSmileCheck, hu, hv, hd, hth, hst]
    · intro hv
      simp [dormantSmileCheck, hu, hv]
  · have hstep : (directorStep s j).1 = awakenAdvance
        (dormantSmileCheck { s with intro_time := s.intro_time + j.dt } j)
        j.dt := rfl
    rw [hstep]
    rcases dormantSmileCheck_world_state
        { s with intro_time := s.intro_time + j.dt } j with h2 | ⟨h2a, h2b⟩ <;>
    rcases awakenAdvance_world_state
        (dormantSmileCheck { s with intro_time := s.intro_time + j.dt } j)
        j.dt with h3 | ⟨h3a, h3b⟩
    · simp [h3, h2]
    · rw [h3b]
      cases hw : s.world_state <;> simp [WorldState.rank]
    · rw [h3, h2b]
      have hd : s.world_state = WorldState.dormant := h2a
      simp [hd, WorldState.rank]
    · rw [h3b]
      cases hw : s.world_state <;> simp [WorldState.rank]
  · intro hres hcontra
    have := halive hcontra
    rw [this] at hres
    exact absurd hres (by simp)

/-- Concrete check of the director transition: in DORMANT with the text
visible, a detected face at strength 0.7 > 0.6, and a sustain timer started
at t = 5.7 checked at intro time 6.0 (0.3 s sustained), the dormant smile
check enters AWAKENING and resets awakening_time to 0. -/
theorem C3_director_transition_witness :
    (dormantSmileCheck ⟨WorldState.dormant, 5, 6, some (57/10)⟩
        ⟨1/60, true, true, 7/10⟩).world_state = WorldState.awakening ∧
    (dormantSmileCheck ⟨WorldState.dormant, 5, 6, some (57/10)⟩
        ⟨1/60, true, true, 7/10⟩).awakening_time = 0 := by
  have h := (C3_director_transition
    ⟨WorldState.dormant, 5, 6, some (57/10)⟩
    ⟨WorldState.dormant, 5, 6, some (57/10)⟩
    ⟨1/60, true, true, 7/10⟩ ⟨1/60, true, true, 7/10⟩).1 rfl
  have hw := h.1.mpr ⟨rfl, rfl, by norm_num [SMILE_THRESHOLD_MAIN],
    ⟨57/10, rfl, by norm_num [SMILE_SUSTAIN_DURATION]⟩⟩
  exact ⟨hw, h.2.1 hw⟩

/-- C4.  Awakening energy curve: room energy is 0 in every DORMANT frame;
in AWAKENING it is ease(min(awakening_time / 12, 1)), which is 0 at
awakening_time = 0, reaches 1 at awakening_time = AWAKEN_DURATION = 12, and
is non-decreasing in the accumulated awakening time; awakening_time
accumulates dt (clamped at 12) each AWAKENING frame; and once ALIVE the
director step keeps the state ALIVE with energy pinned at 1 regardless of
further elapsed time. -/
theorem C4_awakening_energy (s : DirectorState) (i : FrameInput)
    (a b dt : ℚ) :
    (s.world_state = WorldState.dormant → computeEnergy s = 0) ∧
    (s.world_state = WorldState.awakening →
      computeEnergy s = ease (min (s.awakening_time / 12) 1)) ∧
    ease (min ((0 : ℚ) / 12) 1) = 0 ∧
    ease (min (AWAKEN_DURATION / 12) 1) = 1 ∧
    (0 ≤ a → a ≤ b → ease (min (a / 12) 1) ≤ ease (min (b / 12) 1)) ∧
    (s.world_state = WorldState.awakening →
      (awakenAdvance s dt).awakening_time =
        min (s.awakening_time + dt) AWAKEN_DURATION) ∧
    (s.world_state = WorldState.alive →
      (directorStep s i).1.world_state = WorldState.alive ∧
      (directorStep s i).2 = 1) := by
  refine ⟨?_, ?_, ?_, ?_, ?_, ?_, ?_⟩
  · intro hw; simp [computeEnergy, hw]
  · intro hw; simp [computeEnergy, hw]
  · norm_num [ease]
  · norm_num [ease, AWAKEN_DURATION]
  · intro ha hab
    apply ease_mono
    · exact le_min (by positivity) (by norm_num)
    · exact min_le_min (by linarith) le_rfl
    · exact min_le_right _ _
  · intro hw
    unfold awakenAdvance
    rw [hw]
    by_cases hd : AWAKEN_DURATION ≤ s.awakening_time + dt
    · simp [hd, min_eq_right hd]
    · simp [hd, min_eq_left (le_of_not_le hd)]
  · intro hw
    have h1 := directorStep_alive s i hw
    exact ⟨h1, by
      have hstep : (directorStep s i).2 = computeEnergy (directorStep s i).1 := rfl
      rw [hstep]
      simp [computeEnergy, h1]⟩

/-- Concrete check of the awakening energy curve: an AWAKENING state with
awakening_time 6 has energy ease(1/2), energy at awakening_time 3 is at most
energy at awakening_time 5, a 2-second advance moves the clock to
min(8, 12) = 8, and a director step from an ALIVE state stays ALIVE with
energy 1. -/
theorem C4_awakening_energy_witness :
    computeEnergy ⟨WorldState.awakening, 6, 0, none⟩ =
      ease (min ((6 : ℚ) / 12) 1) ∧
    ease (min ((3 : ℚ) / 12) 1) ≤ ease (min ((5 : ℚ) / 12) 1) ∧
    (awakenAdvance ⟨WorldState.awakening, 6, 0, none⟩ 2).awakening_time =
      min ((6 : ℚ) + 2) AWAKEN_DURATION ∧
    (directorStep ⟨WorldState.alive, 12, 0, none⟩
        ⟨1/60, false, false, 0⟩).1.world_state = WorldState.alive ∧
    (directorStep ⟨WorldState.alive, 12, 0, none⟩
        ⟨1/60, false, false, 0⟩).2 = 1 := by
  have h4 := C4_awakening_energy ⟨WorldState.awakening, 6, 0, none⟩
    ⟨1/60, false, false, 0⟩ 3 5 2
  have h5 := C4_awakening_energy ⟨WorldState.alive, 12, 0, none⟩
    ⟨1/60, false, false, 0⟩ 3 5 2
  refine ⟨h4.2.1 rfl, h4.2.2.2.2.1 (by norm_num) (by norm_num),
    h4.2.2.2.2.2.1 rfl, (h5.2.2.2.2.2.2 rfl).1, (h5.2.2.2.2.2.2 rfl).2⟩

/-- C8.  Calibration gate: a freshly constructed SmileDetector starts with
smile_strength 0 and uncalibrated; losing the face resets calibration
(is_calibrated false, calibration start cleared); and along any update
trace in which the detector has not yet become calibrated, every
intermediate smile_strength is exactly 0 — no smile registers before the
baseline freeze. -/
theorem C8_calibration_gate (threshold smooth : ℚ)
    (ins : List (Option ℚ × Option ℚ)) :
    (SmileDetector_init threshold smooth).smile_strength = 0 ∧
    (SmileDetector_init threshold smooth).is_calibrated = false ∧
    (∀ s : SmileState, ∀ t : Option ℚ,
      (SmileDetector_update s none t).is_calibrated = false ∧
      (SmileDetector_update s none t).calibration_start_time = none) ∧
    ((∀ st ∈ smileStatesAfter (SmileDetector_init threshold smooth) ins,
        st.is_calibrated = false) →
      ∀ st ∈ smileStatesAfter (SmileDetector_init threshold smooth) ins,
        st.smile_strength = 0) := by
  refine ⟨rfl, rfl, ?_, ?_⟩
  · intro s t
    exact ⟨by simp [SmileDetector_update], by simp [SmileDetector_update]⟩
  · intro hall
    exact smile_trace_zero _ ins rfl hall

/-- Concrete check of the calibration gate: feeding the fresh detector a
valid metric at t = 0, then a lost face, then another valid metric at
t = 1.5 never calibrates it, and the resulting smile_strength is still
exactly 0. -/
theorem C8_calibration_gate_witness :
    (SmileDetector_update (SmileDetector_update (SmileDetector_update
        (SmileDetector_init (11/50) (2/25)) (some 100) (some 0))
        none (some 1)) (some 50) (some (3/2))).smile_strength = 0 := by
  have h := (C8_calibration_gate (11/50) (2/25)
    [(some 100, some 0), (none, some 1), (some 50, some (3/2))]).2.2.2
    (by
      simp only [smileStatesAfter, List.mem_cons, List.not_mem_nil, or_false,
        forall_eq_or_imp, forall_eq]
      norm_num [SmileDetector_update, SmileDetector_init, pylerp])
  exact h _ (by simp [smileStatesAfter])

/-- C9.  Invalid-metric rejection: when landmarks are present but the
computed mouth-aspect metric is below 4 or above 2000, the update holds the
previous value — smile_strength after the call equals smile_strength before
it exactly (indeed the whole detector state is unchanged), so a single bad
frame cannot raise the strength. -/
theorem C9_invalid_metric_hold (s : SmileState) (m : ℚ) (t : Option ℚ)
    (h : m < 4 ∨ 2000 < m) :
    (SmileDetector_update s (some m) t).smile_strength = s.smile_strength ∧
    SmileDetector_update s (some m) t = s := by
  have he : SmileDetector_update s (some m) t =
      { s with smile_strength :=
          pylerp s.smile_strength s.smile_strength s.smooth } := by
    simp [SmileDetector_update, h]
  have hp : pylerp s.smile_strength s.smile_strength s.smooth =
      s.smile_strength := by
    simp [pylerp]
  refine ⟨?_, ?_⟩ <;> rw [he, hp]

/-- Concrete check of invalid-metric rejection: a calibrated detector at
strength 1/2 fed the implausible metric 3000 keeps strength exactly
1/2. -/
theorem C9_invalid_metric_hold_witness :
    (SmileDetector_update
        ⟨11/50, 2/25, 1/2, some 100, 1/50, some 0, 2, true, 5⟩
        (some 3000) (some 7)).smile_strength = 1/2 := by
  have h := C9_invalid_metric_hold
    ⟨11/50, 2/25, 1/2, some 100, 1/50, some 0, 2, true, 5⟩ 3000 (some 7)
    (by norm_num)
  exact h.1

/-- C5.  Wave ordering: the primary envelope is the clamped
(wave_front - distance·depth_repeat)/WAVE_WIDTH ramp; for two flowers at
the same lateral position with nonnegative depths z1 < z2 and the same
world energy, the nearer flower's envelope is at least the farther one's;
a flower whose scaled distance is at or beyond the wavefront gets envelope
0; and concretely, with depth_repeat 20, WAVE_WIDTH 0.9, max_x 11/2 and
world_energy 1/2 (wave_front 12), a flower at (0, 0) has envelope 1 while
a flower at (0, 15) has envelope 0. -/
theorem C5_wave_ordering (maxX depthRepeat E x z1 z2 : ℝ)
    (hR : 0 < depthRepeat) (hz1 : 0 ≤ z1) (hz : z1 < z2) :
    primaryEnvelope maxX depthRepeat E x z2 ≤
      primaryEnvelope maxX depthRepeat E x z1 ∧
    (E * depthRepeat * 1.2 ≤
        waveDistance maxX depthRepeat x z2 * depthRepeat →
      primaryEnvelope maxX depthRepeat E x z2 = 0) ∧
    primaryEnvelope (11/2) 20 (1/2) 0 0 = 1 ∧
    primaryEnvelope (11/2) 20 (1/2) 0 15 = 0 := by
  have hd : waveDistance maxX depthRepeat x z1 ≤
      waveDistance maxX depthRepeat x z2 := by
    unfold waveDistance
    apply Real.sqrt_le_sqrt
    have h1 : (0 : ℝ) ≤ z1 / depthRepeat := div_nonneg hz1 hR.le
    have h2 : z1 / depthRepeat ≤ z2 / depthRepeat :=
      (div_le_div_right hR).mpr hz.le
    exact add_le_add_left (mul_self_le_mul_self h1 h2) _
  refine ⟨?_, ?_, ?_, ?_⟩
  · unfold primaryEnvelope
    apply clamp01R_mono
    apply div_le_div_of_nonneg_right ?_ (by norm_num)
    have := mul_le_mul_of_nonneg_right hd hR.le
    linarith
  · intro hfront
    unfold primaryEnvelope
    apply clamp01R_of_nonpos
    apply div_nonpos_of_nonpos_of_nonneg ?_ (by norm_num)
    linarith
  · have hw : waveDistance (11/2) 20 0 0 = 0 := by
      unfold waveDistance
      norm_num
    unfold primaryEnvelope
    rw [hw]
    norm_num [clamp01R]
  · have hw : waveDistance (11/2) 20 0 15 = 3/4 := by
      unfold waveDistance
      have he : ((0 : ℝ) / (11/2)) * ((0 : ℝ) / (11/2)) +
          ((15 : ℝ) / 20) * ((15 : ℝ) / 20) = (3/4) ^ 2 := by norm_num
      rw [he, Real.sqrt_sq (by norm_num : (0:ℝ) ≤ 3/4)]
    unfold primaryEnvelope
    rw [hw]
    norm_num [clamp01R]

/-- Concrete check of the wave ordering: with depth_repeat 20, max_x 11/2
and world_energy 1/2, the flower at depth 15 has a primary envelope (0) no
larger than the one of the flower at depth 0 (1). -/
theorem C5_wave_ordering_witness :
    primaryEnvelope (11/2) 20 (1/2) 0 15 ≤
      primaryEnvelope (11/2) 20 (1/2) 0 0 ∧
    primaryEnvelope (11/2) 20 (1/2) 0 0 = 1 ∧
    primaryEnvelope (11/2) 20 (1/2) 0 15 = 0 := by
  have h := C5_wave_ordering (11/2) 20 (1/2) 0 0 15 (by norm_num)
    (by norm_num) (by norm_num)
  exact ⟨h.1, h.2.2.1, h.2.2.2⟩

/-- C7.  Life range invariant: the life target of the wave simulation lies
in [0, 1] for every flower and every input (it is a [0,1] clamp raised to
the 1.4 power), a freshly constructed flower has life 0, and every flower
stored by FlowerField.update has life in [0, 1]. -/
theorem C7_life_range (maxX depthRepeat E x y z size hue t0 dt hx hy : ℝ)
    (fs : FieldState) :
    0 ≤ lifeTarget maxX depthRepeat E x z ∧
    lifeTarget maxX depthRepeat E x z ≤ 1 ∧
    (Flower.init x y z size hue t0).life = 0 ∧
    ((FlowerField_update fs dt hx hy E).flowers.map Flower.life).Forall
      (fun l => 0 ≤ l ∧ l ≤ 1) := by
  refine ⟨(lifeTarget_mem maxX depthRepeat E x z).1,
    (lifeTarget_mem maxX depthRepeat E x z).2, rfl, ?_⟩
  rw [List.forall_iff_forall_mem]
  intro l hl
  simp only [FlowerField_update, List.map_map, List.mem_map,
    Function.comp] at hl
  obtain ⟨f, _, rfl⟩ := hl
  exact lifeTarget_mem _ _ _ _ _

/-- C10.  Head-position noninterference: FlowerField.update accepts head_x,
head_y (and dt) but the life value it assigns to each flower depends only
on the flower's x and z, the field geometry and the world energy — two
updates of the same field with the same world energy but different head
positions and time steps store identical life values for every flower. -/
theorem C10_head_noninterference (fs : FieldState)
    (dt1 hx1 hy1 dt2 hx2 hy2 E : ℝ) :
    (FlowerField_update fs dt1 hx1 hy1 E).flowers.map Flower.life =
    (FlowerField_update fs dt2 hx2 hy2 E).flowers.map Flower.life := by
  simp only [FlowerField_update, List.map_map]
  rfl

/-- C1.  Bloom monotonicity fails in the code: for a flower at z = 0
(depth_repeat 20, total delay 1/4), the life sequence 0.3 then 0.2 — both
at least the 0.05 draw threshold, so the head is rendered in both frames —
makes _draw_neon_rose_head render bloom_t 1/15 and latch bloom_max = 1/15,
and then render bloom_t 0 on the next frame, a strict decrease after a
nonzero value, because the life < total_delay branch bypasses the
bloom_max latch; the stem replica shows the same drop. -/
theorem C1_bloom_monotonicity_failure :
    (roseBloomStep 0 20 (3/10) 0).1 = 1/15 ∧
    (roseBloomStep 0 20 (3/10) 0).2 = 1/15 ∧
    (roseBloomStep 0 20 (1/5) (roseBloomStep 0 20 (3/10) 0).2).1 = 0 ∧
    (roseBloomStep 0 20 (1/5) (roseBloomStep 0 20 (3/10) 0).2).2 = 1/15 ∧
    (roseBloomStep 0 20 (1/5) (roseBloomStep 0 20 (3/10) 0).1).1 <
      (roseBloomStep 0 20 (3/10) 0).1 ∧
    stemBloom 0 20 (3/10) = 1/15 ∧
    stemBloom 0 20 (1/5) = 0 ∧
    (1/20 : ℚ) ≤ 1/5 := by
  norm_num [roseBloomStep, stemBloom, clamp01]

/-- C6.  Painter's sort: the sorted draw list is a permutation of the
culled items; every retained item has total_depth strictly beyond the near
clip (flowers at or behind it are discarded before drawing) and carries
its flower's z_cam and total_depth = eye_depth + z_cam; every flower in
front of the near plane is retained; the draw order (including the
FLOWER_DRAW_LIMIT truncation) is descending in z_cam; items with equal
z_cam keep their insertion order (the stable sort leaves every
equal-z_cam fiber exactly as it appeared in the culled list); and every
drawn flower is paired with perspective scale eye_depth / total_depth. -/
theorem C6_painters_sort (cosP sinP camH eyeDepth nearClip k : ℚ)
    (flowers : List Point3D) :
    List.Perm (drawSorted cosP sinP camH eyeDepth nearClip flowers)
      (drawItems cosP sinP camH eyeDepth nearClip flowers) ∧
    (∀ it ∈ drawSorted cosP sinP camH eyeDepth nearClip flowers,
      nearClip < it.2.1 ∧ it.1 = zcamOf cosP sinP camH it.2.2 ∧
      it.2.1 = eyeDepth + it.1) ∧
    (∀ f ∈ flowers, nearClip < eyeDepth + zcamOf cosP sinP camH f →
      (zcamOf cosP sinP camH f, eyeDepth + zcamOf cosP sinP camH f, f) ∈
        drawItems cosP sinP camH eyeDepth nearClip flowers) ∧
    ((drawSorted cosP sinP camH eyeDepth nearClip flowers).take
      FLOWER_DRAW_LIMIT).Pairwise (fun a b => b.1 ≤ a.1) ∧
    (drawSorted cosP sinP camH eyeDepth nearClip flowers).filter
        (fun it => decide (it.1 = k)) =
      (drawItems cosP sinP camH eyeDepth nearClip flowers).filter
        (fun it => decide (it.1 = k)) ∧
    (∀ pr ∈ drawPass cosP sinP camH eyeDepth nearClip flowers,
      pr.2 = eyeDepth / (eyeDepth + zcamOf cosP sinP camH pr.1)) := by
  have hperm : List.Perm
      (drawSorted cosP sinP camH eyeDepth nearClip flowers)
      (drawItems cosP sinP camH eyeDepth nearClip flowers) :=
    List.mergeSort_perm _ _
  have hmem : ∀ it ∈ drawSorted cosP sinP camH eyeDepth nearClip flowers,
      nearClip < it.2.1 ∧ it.1 = zcamOf cosP sinP camH it.2.2 ∧
      it.2.1 = eyeDepth + it.1 := by
    intro it hit
    have hit2 : it ∈ drawItems cosP sinP camH eyeDepth nearClip flowers :=
      hperm.mem_iff.mp hit
    rcases List.mem_filterMap.mp hit2 with ⟨f, _, hg⟩
    by_cases hc : eyeDepth + zcamOf cosP sinP camH f ≤ nearClip
    · simp [hc] at hg
    · simp only [if_neg hc] at hg
      cases hg
      exact ⟨not_le.mp hc, rfl, rfl⟩
  refine ⟨hperm, hmem, ?_, ?_, ?_, ?_⟩
  · intro f hf hvis
    simp only [drawItems, List.mem_filterMap]
    exact ⟨f, hf, by rw [if_neg (not_le.mpr hvis)]⟩
  · have hs := @List.sorted_mergeSort (ℚ × ℚ × Point3D)
      (fun a b => decide (b.1 ≤ a.1))
      drawLe_trans (fun a b => by
        have := drawLe_total a b
        simpa [Bool.or_eq_true] using this)
      (drawItems cosP sinP camH eyeDepth nearClip flowers)
    have hs2 : (drawSorted cosP sinP camH eyeDepth nearClip
        flowers).Pairwise (fun a b => b.1 ≤ a.1) := by
      refine hs.imp ?_
      intro a b h
      exact decide_eq_true_eq.mp h
    exact hs2.sublist (List.take_sublist _ _)
  · set le := fun a b : ℚ × ℚ × Point3D => decide (b.1 ≤ a.1) with hle
    set p := fun it : ℚ × ℚ × Point3D => decide (it.1 = k) with hp
    set items := drawItems cosP sinP camH eyeDepth nearClip flowers
      with hitems
    have hcP : (items.filter p).Pairwise (fun a b => le a b = true) := by
      apply List.pairwise_of_forall_mem_list
      intro a ha b hb
      have ha2 : a.1 = k := by
        have := List.of_mem_filter ha
        simpa [hp] using this
      have hb2 : b.1 = k := by
        have := List.of_mem_filter hb
        simpa [hp] using this
      simp [hle, ha2, hb2]
    have hsub : List.Sublist (items.filter p) items :=
      List.filter_sublist _
    have hc2 : List.Sublist (items.filter p) (items.mergeSort le) :=
      List.sublist_mergeSort drawLe_trans (fun a b => by
        have := drawLe_total a b
        simpa [Bool.or_eq_true] using this) hcP hsub
    have hperm2 : List.Perm ((items.mergeSort le).filter p)
        (items.filter p) :=
      (List.mergeSort_perm items le).filter p
    have hsub2 : List.Sublist (items.filter p)
        ((items.mergeSort le).filter p) := by
      have h3 := hc2.filter p
      have h4 : (items.filter p).filter p = items.filter p :=
        List.filter_eq_self.mpr (by
          intro a ha
          exact List.of_mem_filter ha)
      rwa [h4] at h3
    have hlen : (items.filter p).length =
        ((items.mergeSort le).filter p).length := hperm2.length_eq.symm
    have := hsub2.eq_of_length hlen
    exact this.symm
  · intro pr hpr
    simp only [drawPass, List.mem_map] at hpr
    rcases hpr with ⟨it, hit, rfl⟩
    have hit2 : it ∈ drawSorted cosP sinP camH eyeDepth nearClip flowers :=
      List.take_subset _ _ hit
    rcases hmem it hit2 with ⟨_, hz, ht⟩
    simp only
    rw [ht, hz]

/-- Concrete check of the painter's sort: with cos 1 / sin 0, camera
height 0, eye depth 2, near clip 1/20 and a single flower at (0, 0, 5)
(z_cam 5, total depth 7), the flower is retained by the culling pass and
the draw pass pairs it with perspective scale 2/7. -/
theorem C6_painters_sort_witness :
    ((zcamOf 1 0 0 ⟨0, 0, 5⟩, 2 + zcamOf 1 0 0 ⟨0, 0, 5⟩,
        (⟨0, 0, 5⟩ : Point3D)) ∈
      drawItems 1 0 0 2 (1/20) [⟨0, 0, 5⟩]) ∧
    (((⟨0, 0, 5⟩ : Point3D), (2 : ℚ)/7)).2 =
      2 / (2 + zcamOf 1 0 0 ⟨0, 0, 5⟩) := by
  have h := C6_painters_sort 1 0 0 2 (1/20) 5 [⟨0, 0, 5⟩]
  refine ⟨h.2.2.1 ⟨0, 0, 5⟩ (by simp)
    (by norm_num [zcamOf, world_to_cameraQ]), ?_⟩
  refine h.2.2.2.2.2 ((⟨0, 0, 5⟩ : Point3D), (2 : ℚ)/7) ?_
  have hz : zcamOf 1 0 0 ⟨0, 0, 5⟩ = 5 := by
    norm_num [zcamOf, world_to_cameraQ]
  simp only [drawPass, drawSorted, drawItems, List.filterMap_cons,
    List.filterMap_nil, hz]
  norm_num [List.mergeSort_singleton, FLOWER_DRAW_LIMIT]
